import Mathlib

/-!
Shallow embedding of `src/packages/aptos-wallet-adapter/src/WalletAdapters/StarcoinWallet.ts`
(class `StarcoinWalletAdapter`), faithful to the source file.  Asynchronous
provider interactions are modelled as oracle records supplying the value or
the rejection each awaited call produces; every adapter method becomes a pure
function from the adapter state (and an oracle) to a result, the new state,
the list of emitted events and the list of external calls performed.
-/

namespace StarcoinAdapter

/-- The four readiness states of `WalletReadyState` from `BaseAdapter`. -/
inductive WalletReadyState
  | Unsupported
  | NotDetected
  | Loadable
  | Installed
deriving DecidableEq, Repr

/-- The `StarcoinAccount` session record.  `address` is `MaybeHexString`;
the account-change handler can overwrite it with `undefined`, hence `Option`.
`isConnected` is the boolean flag read by the `connected` getter. -/
structure StarcoinAccount where
  address : Option String
  publicKey : Option String
  authKey : Option String
  isConnected : Bool
deriving DecidableEq, Repr

/-- A value stored in the dynamically typed `_network` field: `connect`
assigns the numeric `networkInfo.id`, while the network-change handler
assigns the `WalletAdapterNetwork` string it receives. -/
inductive NetVal
  | num (n : Nat)
  | str (s : String)
deriving DecidableEq, Repr

/-- The mutable fields of a `StarcoinWalletAdapter` instance, plus the ambient
`window.starcoin` presence the methods read.  `providerField` is the
`this._provider` capture made in the constructor; `windowStarcoin` is whether
`window.starcoin` is currently injected; `pollActive` is whether the
`scopePollingDetectionStrategy` callback registered in the constructor is
still polling. -/
structure AdapterState where
  providerField : Bool
  windowStarcoin : Bool
  network0 : Option NetVal
  chainId0 : Option String
  api0 : Option String
  readyState0 : WalletReadyState
  connecting0 : Bool
  wallet0 : Option StarcoinAccount
  pollActive : Bool
  timeout0 : Nat
deriving DecidableEq, Repr

/-- Errors a method can reject with: the dedicated wallet error classes the
source throws, and plain `Error(msg)` objects (`GenericError`), plus
rejections coming back from awaited provider calls (`ProviderError`). -/
inductive JsError
  | WalletNotConnectedError (msg : Option String)
  | WalletNotReadyError
  | GenericError (msg : String)
  | ProviderError (msg : String)
deriving DecidableEq, Repr

/-- `error.message` of a `JsError` (`none` models `undefined`). -/
def JsError.message : JsError → Option String
  | .WalletNotConnectedError m => m
  | .WalletNotReadyError => none
  | .GenericError m => some m
  | .ProviderError m => some m

/-- The error objects the adapter passes to `this.emit('error', ...)`. -/
inductive EmittedError
  | WalletGetNetworkError (msg : Option String)
  | UserRejectedConnection
  | WalletSignTransactionError (e : JsError)
  | WalletSignAndSubmitMessageError (msg : Option String)
  | WalletSignMessageError (msg : Option String)
  | WalletAccountChangeError (msg : Option String)
  | WalletNetworkChangeError (msg : Option String)
deriving DecidableEq, Repr

/-- The events the adapter emits (`this.emit(name, payload)`). -/
inductive Event
  | readyStateChange (s : WalletReadyState)
  | connectEv (addr : String)
  | accountChange (a : Option String)
  | networkChange (n : Option NetVal)
  | errorEv (e : EmittedError)
deriving DecidableEq, Repr

/-- External calls a method performs: provider RPCs, the hand-built
transaction path, listener registrations and `window.alert`. -/
inductive ProviderCall
  | isConnectedCall
  | requestAccounts
  | chainIdCall
  | signAndSubmitCall
  | encodeScriptFunction (nodeUrl : Option String)
  | sendUncheckedTransaction (data : String)
  | providerOn (eventName : String)
  | alert (msg : String)
deriving DecidableEq, Repr

/-- The outcome of one adapter method call: the promise's result, the
adapter state afterwards, the events emitted and the external calls made
(in order). -/
structure MOut (α : Type) where
  result : Except JsError α
  state : AdapterState
  events : List Event
  calls : List ProviderCall
deriving Repr

/-- JS truthiness of an optional string: `undefined`/`null` and `''` are
falsy, every other string truthy. -/
def jsTruthyStr : Option String → Bool
  | none => false
  | some s => !(s == "")

/-- `x || null` on an optional string: a falsy value becomes `null`. -/
def jsOrNull (o : Option String) : Option String :=
  if jsTruthyStr o then o else none

/-- `(n).toString(16)`: minimal lowercase hexadecimal rendering. -/
def natToHex (n : Nat) : String := String.mk (Nat.toDigits 16 n)

/-- Getter `connected`: `!!this._wallet?.isConnected`. -/
def connected (s : AdapterState) : Bool :=
  match s.wallet0 with
  | some w => w.isConnected
  | none => false

/-- The `AccountKeys` record returned by the `publicAccount` getter. -/
structure AccountKeys where
  publicKey : Option String
  address : Option String
  authKey : Option String
deriving DecidableEq, Repr

/-- Getter `publicAccount`: each field is `this._wallet?.field || null`. -/
def publicAccount (s : AdapterState) : AccountKeys :=
  { publicKey := jsOrNull (s.wallet0.bind StarcoinAccount.publicKey)
    address := jsOrNull (s.wallet0.bind StarcoinAccount.address)
    authKey := jsOrNull (s.wallet0.bind StarcoinAccount.authKey) }

/-- The `NetworkInfo` record returned by the `network` getter. -/
structure NetworkInfo where
  name : Option NetVal
  api : Option String
  chainId : Option String
deriving DecidableEq, Repr

/-- Getter `network`: projects the `_network`, `_api`, `_chainId` fields. -/
def network (s : AdapterState) : NetworkInfo :=
  { name := s.network0, api := s.api0, chainId := s.chainId0 }

/-- `const provider = this._provider || window.starcoin` is truthy. -/
def providerAvail (s : AdapterState) : Bool :=
  s.providerField || s.windowStarcoin

/-- Constructor: `_readyState` is `Unsupported` when `window` or `document`
is missing, else `NotDetected`; `_provider` captures `window.starcoin`;
`_network`/`_wallet` start `null`, `_connecting` false; the detection poll
is registered when a window exists and readiness is not `Unsupported`. -/
def initState (hasWindow hasDocument starcoinInjected : Bool) : AdapterState :=
  let ready := if hasWindow && hasDocument then WalletReadyState.NotDetected
               else WalletReadyState.Unsupported
  { providerField := hasWindow && starcoinInjected
    windowStarcoin := starcoinInjected
    network0 := none
    chainId0 := none
    api0 := none
    readyState0 := ready
    connecting0 := false
    wallet0 := none
    pollActive := hasWindow && !(ready == WalletReadyState.Unsupported)
    timeout0 := 10000 }

/-- One tick of `scopePollingDetectionStrategy`: when still polling and
`window.starcoin` is present, set `_readyState = Installed`, emit
`readyStateChange` and stop polling; otherwise do nothing. -/
def pollStep (s : AdapterState) : AdapterState × List Event :=
  if s.pollActive && s.windowStarcoin then
    ({ s with readyState0 := WalletReadyState.Installed, pollActive := false },
     [Event.readyStateChange WalletReadyState.Installed])
  else (s, [])

/-- The ambient environment injecting `window.starcoin` after construction
(the event the detection poll is waiting for); touches no adapter field. -/
def injectStarcoin (s : AdapterState) : AdapterState :=
  { s with windowStarcoin := true }

/-- Oracle for the awaited calls `connect()` makes: the value or rejection of
`provider?.isConnected()`, of `window.starcoin.request({method:
'stc_requestAccounts'})` (`none` models a falsy response), and of
`window.starcoin.request({method: 'chain.id'})` (its `.id` number). -/
structure ConnectEnv where
  isConnectedResp : Except String Bool
  requestAccountsResp : Except String (Option String)
  chainIdResp : Except String Nat
deriving Repr

/-- The `catch`/`finally` tail of `connect`: emit the fixed
`Error('User has rejected the connection')`, rethrow, clear `_connecting`. -/
def connectFail (s : AdapterState) (e : JsError) (evs : List Event)
    (cs : List ProviderCall) : MOut Unit :=
  { result := Except.error e
    state := { s with connecting0 := false }
    events := evs ++ [Event.errorEv EmittedError.UserRejectedConnection]
    calls := cs }

/-- `connect()` (source lines 170-228).  Early-returns when connected or
connecting (the `finally` still clears `_connecting`); throws
`WalletNotReadyError` unless readiness is `Loadable` or `Installed`; awaits
`provider?.isConnected()` (only when a provider is available), then
`stc_requestAccounts`; a falsy account response throws
`WalletNotConnectedError('No connect response')`; otherwise the session is
set, `chain.id` is queried (a failure there emits `WalletGetNetworkError`
and rethrows), `_network`/`_chainId` are set and `connect` is emitted with
the address.  Every thrown error passes the outer catch, which emits
`Error('User has rejected the connection')` and rethrows. -/
def connect (s : AdapterState) (env : ConnectEnv) : MOut Unit :=
  if connected s || s.connecting0 then
    { result := Except.ok ()
      state := { s with connecting0 := false }
      events := []
      calls := [] }
  else if !(s.readyState0 == WalletReadyState.Loadable
            || s.readyState0 == WalletReadyState.Installed) then
    connectFail s JsError.WalletNotReadyError [] []
  else
    -- this._connecting = true, then the awaited provider calls
    let s1 := { s with connecting0 := true }
    let preCalls := if providerAvail s1 then [ProviderCall.isConnectedCall] else []
    let step2 : Except JsError Unit :=
      if providerAvail s1 then
        match env.isConnectedResp with
        | Except.error m => Except.error (JsError.ProviderError m)
        | Except.ok _ => Except.ok ()
      else Except.ok ()
    match step2 with
    | Except.error e => connectFail s1 e [] preCalls
    | Except.ok _ =>
      if !s1.windowStarcoin then
        -- `window.starcoin.request` on an undefined object raises a TypeError
        connectFail s1 (JsError.GenericError "TypeError") [] preCalls
      else
        match env.requestAccountsResp with
        | Except.error m =>
          connectFail s1 (JsError.ProviderError m) []
            (preCalls ++ [ProviderCall.requestAccounts])
        | Except.ok acc =>
          if !(jsTruthyStr acc) then
            connectFail s1 (JsError.WalletNotConnectedError (some "No connect response")) []
              (preCalls ++ [ProviderCall.requestAccounts])
          else
            let acct : StarcoinAccount :=
              { address := acc, publicKey := none, authKey := none, isConnected := true }
            let s2 := { s1 with wallet0 := some acct }
            match env.chainIdResp with
            | Except.error m =>
              connectFail s2 (JsError.ProviderError m)
                [Event.errorEv (EmittedError.WalletGetNetworkError (some m))]
                (preCalls ++ [ProviderCall.requestAccounts, ProviderCall.chainIdCall])
            | Except.ok cid =>
              let s3 := { s2 with
                network0 := some (NetVal.num cid)
                chainId0 := some ("0x" ++ natToHex cid) }
              { result := Except.ok ()
                state := { s3 with connecting0 := false }
                events := [Event.connectEv ((jsOrNull acc).getD "")]
                calls := preCalls ++ [ProviderCall.requestAccounts, ProviderCall.chainIdCall] }

/-- `disconnect()` (source lines 230-245): the whole disconnect sequence is
commented out; the method unconditionally throws `Error('No Disconnect')`,
changes nothing and emits nothing. -/
def disconnect (s : AdapterState) : MOut Unit :=
  { result := Except.error (JsError.GenericError "No Disconnect")
    state := s
    events := []
    calls := [] }

/-- `signMessage()` (source lines 368-377): unconditionally throws
`Error('Sign Message failed')`; the catch emits `WalletSignMessageError`
with its message and rethrows.  No session check, no provider call. -/
def signMessage (s : AdapterState) : MOut Unit :=
  { result := Except.error (JsError.GenericError "Sign Message failed")
    state := s
    events := [Event.errorEv (EmittedError.WalletSignMessageError (some "Sign Message failed"))]
    calls := [] }

/-- The hard-coded `_nodeUrlMap` lookup by `window.starcoin.networkVersion`. -/
def nodeUrlMap (k : String) : Option String :=
  if k == "1" then some "https://main-seed.starcoin.org"
  else if k == "2" then some "https://proxima-seed.starcoin.org"
  else if k == "251" then some "https://barnard-seed.starcoin.org"
  else if k == "253" then some "https://halley-seed.starcoin.org"
  else if k == "254" then some "http://localhost:9850"
  else none

/-- The parts of `transactionPyld` the sign methods read: `arguments[0]`
(the recipient, an optional string) and `parseFloat(arguments[1])` (`none`
models `NaN`, `some q` a finite parsed number). -/
structure TxPayload where
  arg0 : Option String
  arg1Parsed : Option Rat
deriving Repr

/-- Oracle for the hand-built transaction path shared by `signTransaction`
and `signAndSubmitTransaction`: `window.starcoin.networkVersion`, the result
of `utils.tx.encodeScriptFunctionByResolve` followed by BCS serialization
and hexlify (collapsed to the resulting `payloadInHex`), and the result of
`sendUncheckedTransaction` (`none` models a falsy hash).
`providerSignAndSubmit` records what `provider.signAndSubmit` would report
(the `{success, result: {hash}}` shape of the `IStarcoinWallet` interface);
the call to it is commented out in the source, so it is never consulted. -/
structure SignEnv where
  networkVersion : String
  encodeResp : Except String String
  sendResp : Except String (Option String)
  providerSignAndSubmit : Bool × Option String
deriving Repr

/-- The value `signTransaction` resolves with: the literal `false` after an
input-validation alert, or the transaction hash. -/
inductive SignTxResult
  | retFalse
  | hash (h : String)
deriving DecidableEq, Repr

/-- The guard `sendAmount <= 0` with `sendAmount = parseFloat(...)`:
`NaN <= 0` is false in JS, so `none` fails the guard. -/
def amountNonPositive : Option Rat → Bool
  | some q => decide (q ≤ 0)
  | none => false

/-- `signTransaction()` (source lines 247-314).  Throws
`WalletNotConnectedError` when session or provider is missing; alerts and
resolves `false` on a falsy recipient or a non-positive parsed amount;
otherwise encodes the hard-coded peer-to-peer script and submits it through
`sendUncheckedTransaction`; a falsy hash throws `Error('No response')`.
The catch emits `WalletSignTransactionError(error)` and rethrows. -/
def signTransaction (s : AdapterState) (p : TxPayload) (env : SignEnv) :
    MOut SignTxResult :=
  if s.wallet0.isNone || !(providerAvail s) then
    { result := Except.error (JsError.WalletNotConnectedError none)
      state := s
      events := [Event.errorEv (EmittedError.WalletSignTransactionError
        (JsError.WalletNotConnectedError none))]
      calls := [] }
  else if !(jsTruthyStr p.arg0) then
    { result := Except.ok SignTxResult.retFalse
      state := s
      events := []
      calls := [ProviderCall.alert "Invalid To: can not be empty!"] }
  else if amountNonPositive p.arg1Parsed then
    { result := Except.ok SignTxResult.retFalse
      state := s
      events := []
      calls := [ProviderCall.alert "Invalid sendAmount: should be a number!"] }
  else
    let nodeUrl := nodeUrlMap env.networkVersion
    match env.encodeResp with
    | Except.error m =>
      { result := Except.error (JsError.ProviderError m)
        state := s
        events := [Event.errorEv (EmittedError.WalletSignTransactionError
          (JsError.ProviderError m))]
        calls := [ProviderCall.encodeScriptFunction nodeUrl] }
    | Except.ok hex =>
      match env.sendResp with
      | Except.error m =>
        { result := Except.error (JsError.ProviderError m)
          state := s
          events := [Event.errorEv (EmittedError.WalletSignTransactionError
            (JsError.ProviderError m))]
          calls := [ProviderCall.encodeScriptFunction nodeUrl,
                    ProviderCall.sendUncheckedTransaction hex] }
      | Except.ok h =>
        if !(jsTruthyStr h) then
          { result := Except.error (JsError.GenericError "No response")
            state := s
            events := [Event.errorEv (EmittedError.WalletSignTransactionError
              (JsError.GenericError "No response"))]
            calls := [ProviderCall.encodeScriptFunction nodeUrl,
                      ProviderCall.sendUncheckedTransaction hex] }
        else
          { result := Except.ok (SignTxResult.hash (h.getD ""))
            state := s
            events := []
            calls := [ProviderCall.encodeScriptFunction nodeUrl,
                      ProviderCall.sendUncheckedTransaction hex] }

/-- The `{ hash }` record `signAndSubmitTransaction` resolves with. -/
structure TxHash where
  hash : String
deriving DecidableEq, Repr

/-- `signAndSubmitTransaction()` (source lines 316-366).  Same hand-built
path as `signTransaction` but with no recipient/amount validation: throws
`WalletNotConnectedError` when session or provider is missing, encodes the
hard-coded script, submits it through `sendUncheckedTransaction`, throws
`Error('No response')` on a falsy hash and otherwise resolves
`{hash: transactionHash}`.  The commented-out `provider.signAndSubmit` call
(and hence any `success` flag) is never consulted.  The catch emits
`WalletSignAndSubmitMessageError(error.message)` and rethrows. -/
def signAndSubmitTransaction (s : AdapterState) (_p : TxPayload) (env : SignEnv) :
    MOut TxHash :=
  if s.wallet0.isNone || !(providerAvail s) then
    { result := Except.error (JsError.WalletNotConnectedError none)
      state := s
      events := [Event.errorEv (EmittedError.WalletSignAndSubmitMessageError
        (JsError.WalletNotConnectedError none).message)]
      calls := [] }
  else
    let nodeUrl := nodeUrlMap env.networkVersion
    match env.encodeResp with
    | Except.error m =>
      { result := Except.error (JsError.ProviderError m)
        state := s
        events := [Event.errorEv (EmittedError.WalletSignAndSubmitMessageError (some m))]
        calls := [ProviderCall.encodeScriptFunction nodeUrl] }
    | Except.ok hex =>
      match env.sendResp with
      | Except.error m =>
        { result := Except.error (JsError.ProviderError m)
          state := s
          events := [Event.errorEv (EmittedError.WalletSignAndSubmitMessageError (some m))]
          calls := [ProviderCall.encodeScriptFunction nodeUrl,
                    ProviderCall.sendUncheckedTransaction hex] }
      | Except.ok h =>
        if !(jsTruthyStr h) then
          { result := Except.error (JsError.GenericError "No response")
            state := s
            events := [Event.errorEv
              (EmittedError.WalletSignAndSubmitMessageError (some "No response"))]
            calls := [ProviderCall.encodeScriptFunction nodeUrl,
                      ProviderCall.sendUncheckedTransaction hex] }
        else
          { result := Except.ok { hash := h.getD "" }
            state := s
            events := []
            calls := [ProviderCall.encodeScriptFunction nodeUrl,
                      ProviderCall.sendUncheckedTransaction hex] }

/-- The `handleAccountChange` closure (source lines 384-399).  The
commented-out undefined-account branch never runs: the handler always
spreads the current wallet, overwrites `address` with the new account and
emits `accountChange`.  Spreading a `null` wallet yields an object whose
`isConnected` is `undefined`, i.e. falsy. -/
def handleAccountChange (s : AdapterState) (newAccount : Option String) :
    AdapterState × List Event :=
  let w := match s.wallet0 with
    | some w => { w with address := newAccount }
    | none => { address := newAccount, publicKey := none, authKey := none,
                isConnected := false }
  ({ s with wallet0 := some w }, [Event.accountChange newAccount])

/-- `onAccountChange()` (source lines 379-406): throws
`WalletNotConnectedError` when session or provider is missing (the catch
emits `WalletAccountChangeError(error.message)` and rethrows); otherwise
registers `handleAccountChange` via `provider.on('accountsChanged', ...)`,
whose own rejection is likewise wrapped. -/
def onAccountChange (s : AdapterState) (onResp : Except String Unit) : MOut Unit :=
  if s.wallet0.isNone || !(providerAvail s) then
    { result := Except.error (JsError.WalletNotConnectedError none)
      state := s
      events := [Event.errorEv (EmittedError.WalletAccountChangeError
        (JsError.WalletNotConnectedError none).message)]
      calls := [] }
  else
    match onResp with
    | Except.error m =>
      { result := Except.error (JsError.ProviderError m)
        state := s
        events := [Event.errorEv (EmittedError.WalletAccountChangeError (some m))]
        calls := [ProviderCall.providerOn "accountsChanged"] }
    | Except.ok _ =>
      { result := Except.ok ()
        state := s
        events := []
        calls := [ProviderCall.providerOn "accountsChanged"] }

/-- The `handleNetworkChange` closure (source lines 413-418): overwrite
`_network` with the received value and emit `networkChange` with the new
`_network`; the `_api`/`_chainId` assignments are commented out. -/
def handleNetworkChange (s : AdapterState) (v : NetVal) :
    AdapterState × List Event :=
  let s1 := { s with network0 := some v }
  (s1, [Event.networkChange s1.network0])

/-- `onNetworkChange()` (source lines 408-425): throws
`WalletNotConnectedError` when session or provider is missing (the catch
emits `WalletNetworkChangeError(error.message)` and rethrows); otherwise
registers `handleNetworkChange` via `provider.on('networkChanged', ...)`. -/
def onNetworkChange (s : AdapterState) (onResp : Except String Unit) : MOut Unit :=
  if s.wallet0.isNone || !(providerAvail s) then
    { result := Except.error (JsError.WalletNotConnectedError none)
      state := s
      events := [Event.errorEv (EmittedError.WalletNetworkChangeError
        (JsError.WalletNotConnectedError none).message)]
      calls := [] }
  else
    match onResp with
    | Except.error m =>
      { result := Except.error (JsError.ProviderError m)
        state := s
        events := [Event.errorEv (EmittedError.WalletNetworkChangeError (some m))]
        calls := [ProviderCall.providerOn "networkChanged"] }
    | Except.ok _ =>
      { result := Except.ok ()
        state := s
        events := []
        calls := [ProviderCall.providerOn "networkChanged"] }

/-- A rejection with `WalletNotConnectedError` (any message). -/
def isNotConnectedRejection {α : Type} : Except JsError α → Bool
  | Except.error (JsError.WalletNotConnectedError _) => true
  | _ => false

/-- An external call that is only a `window.alert`, not a provider contact. -/
def isAlertCall : ProviderCall → Bool
  | ProviderCall.alert _ => true
  | _ => false

/-! Concrete fixture states and oracles used by witnesses and
counterexamples. -/

/-- A connected adapter: session present, provider injected, readiness
`Installed`, network data from a previous `connect` on chain 254. -/
def sConn0 : AdapterState :=
  { providerField := true
    windowStarcoin := true
    network0 := some (NetVal.num 254)
    chainId0 := some "0xfe"
    api0 := none
    readyState0 := WalletReadyState.Installed
    connecting0 := false
    wallet0 := some { address := some "0x1", publicKey := none, authKey := none,
                      isConnected := true }
    pollActive := false
    timeout0 := 10000 }

/-- The same adapter before any successful `connect`: no session. -/
def sDisc0 : AdapterState :=
  { sConn0 with wallet0 := none, network0 := none, chainId0 := none }

/-- A freshly constructed adapter whose provider was never detected. -/
def sND0 : AdapterState :=
  { sDisc0 with readyState0 := WalletReadyState.NotDetected }

/-- `connect` oracle: provider not yet connected, accounts response
`'0xABC'`, chain id `254`. -/
def envRT (b : Bool) : ConnectEnv :=
  { isConnectedResp := Except.ok b
    requestAccountsResp := Except.ok (some "0xABC")
    chainIdResp := Except.ok 254 }

/-- A payload with a valid recipient and a negative parsed amount. -/
def pNeg : TxPayload := { arg0 := some "0xdef", arg1Parsed := some (-1 : Rat) }

/-- A payload with a falsy recipient (`arguments[0]` undefined). -/
def pNoTo : TxPayload := { arg0 := none, arg1Parsed := some (5 : Rat) }

/-- A payload with a valid recipient and a positive parsed amount. -/
def pOk : TxPayload := { arg0 := some "0xdef", arg1Parsed := some (5 : Rat) }

/-- Sign oracle: encoding succeeds, submission returns hash `'0xh1'`, while
the (never consulted) `provider.signAndSubmit` would report failure. -/
def envSub0 : SignEnv :=
  { networkVersion := "254"
    encodeResp := Except.ok "0xhexpayload"
    sendResp := Except.ok (some "0xh1")
    providerSignAndSubmit := (false, none) }

/-! Claim theorems. -/

/-- C1 counterexample: at a connected state, `disconnect()` rejects with
`Error('No Disconnect')`, leaves the session in place (still connected),
performs no provider call and emits nothing — so it neither clears the
session, nor invokes the provider's disconnect, nor emits "disconnected",
and it does rethrow. -/
theorem disconnect_claim_counterexample :
    (disconnect sConn0).result = Except.error (JsError.GenericError "No Disconnect")
    ∧ (disconnect sConn0).state.wallet0 = sConn0.wallet0
    ∧ connected (disconnect sConn0).state = true
    ∧ (disconnect sConn0).events = []
    ∧ (disconnect sConn0).calls = [] :=
  ⟨rfl, rfl, rfl, rfl, rfl⟩

/-- C1 (amended): for every adapter state, `disconnect()` rejects with
`Error('No Disconnect')`, changes no state, performs no provider call and
emits no event. -/
theorem disconnect_always_throws (s : AdapterState) :
    (disconnect s).result = Except.error (JsError.GenericError "No Disconnect")
    ∧ (disconnect s).state = s
    ∧ (disconnect s).events = []
    ∧ (disconnect s).calls = [] :=
  ⟨rfl, rfl, rfl, rfl⟩

/-- C4 counterexample: at a connected state, invoking the account-change
handler with `undefined` leaves `connected` equal to `true` and does emit
an `accountChange` event (with payload `undefined`). -/
theorem accountChange_undefined_counterexample :
    connected (handleAccountChange sConn0 none).1 = true
    ∧ (handleAccountChange sConn0 none).2 = [Event.accountChange none] :=
  ⟨rfl, rfl⟩

/-- C4 (amended): the account-change handler invoked with `undefined`
overwrites the stored address with `undefined`, leaves `connected`
unchanged (so still `true` when a session was connected), and emits an
`accountChange` event with payload `undefined`. -/
theorem handleAccountChange_undefined_effect (s : AdapterState) :
    connected (handleAccountChange s none).1 = connected s
    ∧ (handleAccountChange s none).1.wallet0.map StarcoinAccount.address = some none
    ∧ (handleAccountChange s none).2 = [Event.accountChange none] := by
  rcases hs : s.wallet0 with _ | w <;>
    simp [handleAccountChange, connected, hs]

/-- C5: `connect()` called while `connecting` or `connected` resolves
immediately: no event, no provider call, session and network state
untouched. -/
theorem connect_noop_when_busy (s : AdapterState) (env : ConnectEnv)
    (h : (connected s || s.connecting0) = true) :
    (connect s env).result = Except.ok ()
    ∧ (connect s env).events = []
    ∧ (connect s env).calls = []
    ∧ (connect s env).state.wallet0 = s.wallet0
    ∧ (connect s env).state.network0 = s.network0
    ∧ (connect s env).state.chainId0 = s.chainId0
    ∧ (connect s env).state.api0 = s.api0 := by
  simp [connect, h]

/-- C5 witness: the no-op at the concrete connected state `sConn0`. -/
theorem connect_noop_when_busy_witness :
    (connect sConn0 (envRT false)).result = Except.ok ()
    ∧ (connect sConn0 (envRT false)).events = []
    ∧ (connect sConn0 (envRT false)).calls = []
    ∧ (connect sConn0 (envRT false)).state.wallet0 = sConn0.wallet0
    ∧ (connect sConn0 (envRT false)).state.network0 = sConn0.network0
    ∧ (connect sConn0 (envRT false)).state.chainId0 = sConn0.chainId0
    ∧ (connect sConn0 (envRT false)).state.api0 = sConn0.api0 :=
  connect_noop_when_busy sConn0 (envRT false) rfl

/-- C10: the network-change handler overwrites only the stored network
name; `network.chainId` and `network.api` are unchanged, and a
`networkChange` event with the new value is emitted. -/
theorem handleNetworkChange_frame (s : AdapterState) (v : NetVal) :
    (network (handleNetworkChange s v).1).chainId = (network s).chainId
    ∧ (network (handleNetworkChange s v).1).api = (network s).api
    ∧ (network (handleNetworkChange s v).1).name = some v
    ∧ (handleNetworkChange s v).2 = [Event.networkChange (some v)] := by
  simp [handleNetworkChange, network]

/-- C2 counterexample: with no session, `signMessage` does reject and makes
no provider call, but its rejection is the plain `Error('Sign Message
failed')`, not a `WalletNotConnectedError`. -/
theorem signMessage_notConnected_counterexample :
    sDisc0.wallet0 = none
    ∧ isNotConnectedRejection (signMessage sDisc0).result = false
    ∧ (signMessage sDisc0).result = Except.error (JsError.GenericError "Sign Message failed")
    ∧ (signMessage sDisc0).calls = [] :=
  ⟨rfl, rfl, rfl, rfl⟩

/-- C2 (amended): with no session, `signTransaction`,
`signAndSubmitTransaction`, `onAccountChange` and `onNetworkChange` reject
with `WalletNotConnectedError` and perform no provider call; `signMessage`
also performs no provider call but rejects with
`Error('Sign Message failed')` instead. -/
theorem noSession_guards (s : AdapterState) (p : TxPayload) (env : SignEnv)
    (o1 o2 : Except String Unit) (h : s.wallet0 = none) :
    (signTransaction s p env).result = Except.error (JsError.WalletNotConnectedError none)
    ∧ (signTransaction s p env).calls = []
    ∧ (signAndSubmitTransaction s p env).result
        = Except.error (JsError.WalletNotConnectedError none)
    ∧ (signAndSubmitTransaction s p env).calls = []
    ∧ (onAccountChange s o1).result = Except.error (JsError.WalletNotConnectedError none)
    ∧ (onAccountChange s o1).calls = []
    ∧ (onNetworkChange s o2).result = Except.error (JsError.WalletNotConnectedError none)
    ∧ (onNetworkChange s o2).calls = []
    ∧ (signMessage s).result = Except.error (JsError.GenericError "Sign Message failed")
    ∧ (signMessage s).calls = [] := by
  refine ⟨?_, ?_, ?_, ?_, ?_, ?_, ?_, ?_, rfl, rfl⟩ <;>
    simp [signTransaction, signAndSubmitTransaction, onAccountChange, onNetworkChange, h]

/-- C2 witness: the guards at the concrete session-less state `sDisc0`. -/
theorem noSession_guards_witness :
    (signTransaction sDisc0 pOk envSub0).result
        = Except.error (JsError.WalletNotConnectedError none)
    ∧ (signTransaction sDisc0 pOk envSub0).calls = []
    ∧ (signAndSubmitTransaction sDisc0 pOk envSub0).result
        = Except.error (JsError.WalletNotConnectedError none)
    ∧ (signAndSubmitTransaction sDisc0 pOk envSub0).calls = []
    ∧ (onAccountChange sDisc0 (Except.ok ())).result
        = Except.error (JsError.WalletNotConnectedError none)
    ∧ (onAccountChange sDisc0 (Except.ok ())).calls = []
    ∧ (onNetworkChange sDisc0 (Except.ok ())).result
        = Except.error (JsError.WalletNotConnectedError none)
    ∧ (onNetworkChange sDisc0 (Except.ok ())).calls = []
    ∧ (signMessage sDisc0).result = Except.error (JsError.GenericError "Sign Message failed")
    ∧ (signMessage sDisc0).calls = [] :=
  noSession_guards sDisc0 pOk envSub0 (Except.ok ()) (Except.ok ()) rfl

/-- C3 counterexample: `signAndSubmitTransaction` resolves with a hash in a
run where the provider's `signAndSubmit` (the interface method carrying the
`success` flag) would report `success = false` and is never even invoked —
resolution does not depend on any `success === true` report. -/
theorem signAndSubmit_success_flag_counterexample :
    envSub0.providerSignAndSubmit.1 = false
    ∧ (signAndSubmitTransaction sConn0 pOk envSub0).result = Except.ok { hash := "0xh1" }
    ∧ ProviderCall.signAndSubmitCall ∉ (signAndSubmitTransaction sConn0 pOk envSub0).calls :=
  ⟨rfl, rfl, by
    simp [signAndSubmitTransaction, sConn0, envSub0, providerAvail, jsTruthyStr, nodeUrlMap]⟩

/-- C3 (amended): with a session and provider present and the script
encoding succeeding, `signAndSubmitTransaction` resolves `{hash}` exactly
when `sendUncheckedTransaction` returns a truthy hash; a falsy hash rejects
with `Error('No response')` and emits `WalletSignAndSubmitMessageError('No
response')` before rethrowing; the provider's own `signAndSubmit` (and so
any `success` flag) is never consulted. -/
theorem signAndSubmit_hash_only (s : AdapterState) (p : TxPayload) (env : SignEnv)
    (hex : String)
    (hw : s.wallet0.isNone = false) (hp : providerAvail s = true)
    (he : env.encodeResp = Except.ok hex) :
    (∀ h, env.sendResp = Except.ok (some h) → (h == "") = false →
      (signAndSubmitTransaction s p env).result = Except.ok { hash := h }
      ∧ (signAndSubmitTransaction s p env).events = [])
    ∧ ((env.sendResp = Except.ok none ∨ env.sendResp = Except.ok (some "")) →
      (signAndSubmitTransaction s p env).result
        = Except.error (JsError.GenericError "No response")
      ∧ (signAndSubmitTransaction s p env).events
        = [Event.errorEv (EmittedError.WalletSignAndSubmitMessageError (some "No response"))])
    ∧ ProviderCall.signAndSubmitCall ∉ (signAndSubmitTransaction s p env).calls := by
  refine ⟨?_, ?_, ?_⟩
  · intro h hs hne
    simp [signAndSubmitTransaction, jsTruthyStr, hw, hp, he, hs, hne]
  · rintro (hs | hs) <;> simp [signAndSubmitTransaction, jsTruthyStr, hw, hp, he, hs]
  · rcases henv : env.sendResp with m | o
    · simp [signAndSubmitTransaction, hw, hp, he, henv]
    · rcases o with _ | h2
      · simp [signAndSubmitTransaction, jsTruthyStr, hw, hp, he, henv]
      · by_cases hne : (h2 == "") = true <;>
          simp [signAndSubmitTransaction, jsTruthyStr, hw, hp, he, henv, hne]

/-- Sign oracle identical to `envSub0` but submitting to hash `'0xh2'`. -/
def envSub2 : SignEnv := { envSub0 with sendResp := Except.ok (some "0xh2") }

/-- C3 witness: the truthy-hash resolution at the concrete state `sConn0`. -/
theorem signAndSubmit_hash_only_witness :
    (signAndSubmitTransaction sConn0 pOk envSub2).result = Except.ok { hash := "0xh2" }
    ∧ (signAndSubmitTransaction sConn0 pOk envSub2).events = [] :=
  (signAndSubmit_hash_only sConn0 pOk envSub2 "0xhexpayload" rfl rfl rfl).1 "0xh2" rfl rfl

/-- C6: `connect()` on an adapter with no session and not connecting, whose
readiness is `NotDetected` or `Unsupported`, rejects with
`WalletNotReadyError` and leaves the session unset. -/
theorem connect_notReady (s : AdapterState) (env : ConnectEnv)
    (hw : s.wallet0 = none) (hc : s.connecting0 = false)
    (hr : s.readyState0 = WalletReadyState.NotDetected
          ∨ s.readyState0 = WalletReadyState.Unsupported) :
    (connect s env).result = Except.error JsError.WalletNotReadyError
    ∧ (connect s env).state.wallet0 = none
    ∧ connected (connect s env).state = false := by
  rcases hr with hr | hr <;>
    simp [connect, connectFail, connected, hw, hc, hr]

/-- C6 witness: the `NotReady` rejection at the concrete state `sND0`. -/
theorem connect_notReady_witness :
    (connect sND0 (envRT false)).result = Except.error JsError.WalletNotReadyError
    ∧ (connect sND0 (envRT false)).state.wallet0 = none
    ∧ connected (connect sND0 (envRT false)).state = false :=
  connect_notReady sND0 (envRT false) rfl rfl (Or.inl rfl)

/-- C7: a `connect()` that succeeds with the provider reporting account
`'0xABC'` and numeric chain id `254` leaves `publicAccount.address =
'0xABC'` and `network.chainId = '0xfe'`. -/
theorem connect_roundTrip (s : AdapterState) (b : Bool)
    (hw : s.wallet0 = none) (hc : s.connecting0 = false)
    (hr : s.readyState0 = WalletReadyState.Loadable
          ∨ s.readyState0 = WalletReadyState.Installed)
    (hwin : s.windowStarcoin = true) :
    (connect s (envRT b)).result = Except.ok ()
    ∧ (publicAccount (connect s (envRT b)).state).address = some "0xABC"
    ∧ (network (connect s (envRT b)).state).chainId = some "0xfe" := by
  rcases hr with hr | hr <;>
    simp [connect, connected, connectFail, providerAvail, envRT, jsTruthyStr, jsOrNull,
      publicAccount, network, natToHex, hw, hc, hr, hwin] <;> rfl

/-- C7 witness: the round trip at the concrete state `sDisc0`. -/
theorem connect_roundTrip_witness :
    (connect sDisc0 (envRT false)).result = Except.ok ()
    ∧ (publicAccount (connect sDisc0 (envRT false)).state).address = some "0xABC"
    ∧ (network (connect sDisc0 (envRT false)).state).chainId = some "0xfe" :=
  connect_roundTrip sDisc0 false rfl rfl (Or.inr rfl) rfl

/-- C9: with a session and provider present, `signTransaction` on a payload
with a falsy recipient or a non-positive parsed amount resolves with the
literal `false`, emits nothing, changes nothing, and its only external call
is a `window.alert` — it never contacts the provider for signing. -/
theorem signTransaction_validation (s : AdapterState) (p : TxPayload) (env : SignEnv)
    (hw : s.wallet0.isNone = false) (hp : providerAvail s = true)
    (hg : jsTruthyStr p.arg0 = false ∨ amountNonPositive p.arg1Parsed = true) :
    (signTransaction s p env).result = Except.ok SignTxResult.retFalse
    ∧ (signTransaction s p env).events = []
    ∧ (signTransaction s p env).state = s
    ∧ (signTransaction s p env).calls.all isAlertCall = true := by
  rcases hg with hg | hg <;>
    by_cases ha : jsTruthyStr p.arg0 = false <;>
      simp [signTransaction, isAlertCall, hw, hp, hg, ha]

/-- C9 witness: the short-circuit at `sConn0` with an empty recipient. -/
theorem signTransaction_validation_witness :
    (signTransaction sConn0 pNoTo envSub0).result = Except.ok SignTxResult.retFalse
    ∧ (signTransaction sConn0 pNoTo envSub0).events = []
    ∧ (signTransaction sConn0 pNoTo envSub0).state = sConn0
    ∧ (signTransaction sConn0 pNoTo envSub0).calls.all isAlertCall = true :=
  signTransaction_validation sConn0 pNoTo envSub0 rfl rfl (Or.inl rfl)

/-! Helper lemmas for the readiness-state lifecycle (C8): every adapter
operation preserves `_readyState` and the poll registration, and the poll
itself can only move `NotDetected` to `Installed`. -/

lemma connect_keeps_ready (s : AdapterState) (env : ConnectEnv) :
    (connect s env).state.readyState0 = s.readyState0
    ∧ (connect s env).state.pollActive = s.pollActive := by
  obtain ⟨ic, ra, ci⟩ := env
  rcases hpf : s.providerField <;> rcases hws : s.windowStarcoin <;>
    rcases ic with m1 | b1 <;> rcases ra with m2 | acc <;> rcases ci with m3 | cid <;>
      simp [connect, connectFail, providerAvail, hpf, hws] <;>
        (repeat' split) <;> simp_all

lemma signTransaction_keeps_ready (s : AdapterState) (p : TxPayload) (env : SignEnv) :
    (signTransaction s p env).state.readyState0 = s.readyState0
    ∧ (signTransaction s p env).state.pollActive = s.pollActive := by
  unfold signTransaction
  (repeat' split) <;> simp

lemma signAndSubmit_keeps_ready (s : AdapterState) (p : TxPayload) (env : SignEnv) :
    (signAndSubmitTransaction s p env).state.readyState0 = s.readyState0
    ∧ (signAndSubmitTransaction s p env).state.pollActive = s.pollActive := by
  unfold signAndSubmitTransaction
  (repeat' split) <;> simp

lemma onAccountChange_keeps_ready (s : AdapterState) (o : Except String Unit) :
    (onAccountChange s o).state.readyState0 = s.readyState0
    ∧ (onAccountChange s o).state.pollActive = s.pollActive := by
  unfold onAccountChange
  (repeat' split) <;> simp

lemma onNetworkChange_keeps_ready (s : AdapterState) (o : Except String Unit) :
    (onNetworkChange s o).state.readyState0 = s.readyState0
    ∧ (onNetworkChange s o).state.pollActive = s.pollActive := by
  unfold onNetworkChange
  (repeat' split) <;> simp

lemma handleAccountChange_keeps_ready (s : AdapterState) (a : Option String) :
    (handleAccountChange s a).1.readyState0 = s.readyState0
    ∧ (handleAccountChange s a).1.pollActive = s.pollActive := by
  unfold handleAccountChange
  (repeat' split) <;> simp

lemma pollStep_only_detects (s : AdapterState)
    (hinv : s.pollActive = true → s.readyState0 = WalletReadyState.NotDetected) :
    ((pollStep s).1.readyState0 = s.readyState0 ∧ (pollStep s).1.pollActive = s.pollActive)
    ∨ (s.readyState0 = WalletReadyState.NotDetected
       ∧ (pollStep s).1.readyState0 = WalletReadyState.Installed
       ∧ (pollStep s).1.pollActive = false) := by
  by_cases h : (s.pollActive && s.windowStarcoin) = true
  · right
    have hpa : s.pollActive = true := ((Bool.and_eq_true _ _).mp h).1
    exact ⟨hinv hpa, by simp [pollStep, h], by simp [pollStep, h]⟩
  · left
    simp [pollStep, h]

lemma initState_ready (w d p : Bool) :
    (initState w d p).readyState0
      = (if w && d then WalletReadyState.NotDetected else WalletReadyState.Unsupported)
    ∧ ((initState w d p).pollActive = true →
        (initState w d p).readyState0 = WalletReadyState.NotDetected) := by
  rcases w <;> rcases d <;> simp [initState]

/-- C8: the readiness state is `Unsupported` at construction exactly when
`window`/`document` is missing and `NotDetected` otherwise (and the
detection poll is only registered in the `NotDetected` case); every adapter
operation, the change handlers and provider injection preserve
`_readyState` and the poll registration; and a poll tick either changes
nothing or performs the single transition `NotDetected` to `Installed`,
stopping the poll — so `Unsupported` and `Installed` are terminal. -/
theorem readyState_lifecycle :
    (∀ w d p, (initState w d p).readyState0
        = (if w && d then WalletReadyState.NotDetected else WalletReadyState.Unsupported)
      ∧ ((initState w d p).pollActive = true →
          (initState w d p).readyState0 = WalletReadyState.NotDetected))
    ∧ (∀ s env, (connect s env).state.readyState0 = s.readyState0
        ∧ (connect s env).state.pollActive = s.pollActive)
    ∧ (∀ s, (disconnect s).state.readyState0 = s.readyState0
        ∧ (disconnect s).state.pollActive = s.pollActive)
    ∧ (∀ s p env, (signTransaction s p env).state.readyState0 = s.readyState0
        ∧ (signTransaction s p env).state.pollActive = s.pollActive)
    ∧ (∀ s p env, (signAndSubmitTransaction s p env).state.readyState0 = s.readyState0
        ∧ (signAndSubmitTransaction s p env).state.pollActive = s.pollActive)
    ∧ (∀ s, (signMessage s).state.readyState0 = s.readyState0
        ∧ (signMessage s).state.pollActive = s.pollActive)
    ∧ (∀ s o, (onAccountChange s o).state.readyState0 = s.readyState0
        ∧ (onAccountChange s o).state.pollActive = s.pollActive)
    ∧ (∀ s o, (onNetworkChange s o).state.readyState0 = s.readyState0
        ∧ (onNetworkChange s o).state.pollActive = s.pollActive)
    ∧ (∀ s a, (handleAccountChange s a).1.readyState0 = s.readyState0
        ∧ (handleAccountChange s a).1.pollActive = s.pollActive)
    ∧ (∀ s v, (handleNetworkChange s v).1.readyState0 = s.readyState0
        ∧ (handleNetworkChange s v).1.pollActive = s.pollActive)
    ∧ (∀ s, (injectStarcoin s).readyState0 = s.readyState0
        ∧ (injectStarcoin s).pollActive = s.pollActive)
    ∧ (∀ s, (s.pollActive = true → s.readyState0 = WalletReadyState.NotDetected) →
        ((pollStep s).1.readyState0 = s.readyState0
         ∧ (pollStep s).1.pollActive = s.pollActive)
        ∨ (s.readyState0 = WalletReadyState.NotDetected
           ∧ (pollStep s).1.readyState0 = WalletReadyState.Installed
           ∧ (pollStep s).1.pollActive = false)) :=
  ⟨initState_ready,
   connect_keeps_ready,
   fun _ => ⟨rfl, rfl⟩,
   signTransaction_keeps_ready,
   signAndSubmit_keeps_ready,
   fun _ => ⟨rfl, rfl⟩,
   onAccountChange_keeps_ready,
   onNetworkChange_keeps_ready,
   handleAccountChange_keeps_ready,
   fun _ _ => ⟨rfl, rfl⟩,
   fun _ => ⟨rfl, rfl⟩,
   pollStep_only_detects⟩

/-- A freshly constructed adapter (window and document present, provider
not yet injected) after the extension later injects `window.starcoin`. -/
def sPoll0 : AdapterState := injectStarcoin (initState true true false)

/-- C8 witness: the poll transition at the concrete post-injection state
`sPoll0`, applying the lifecycle theorem's poll conjunct. -/
theorem readyState_lifecycle_witness :
    ((pollStep sPoll0).1.readyState0 = sPoll0.readyState0
     ∧ (pollStep sPoll0).1.pollActive = sPoll0.pollActive)
    ∨ (sPoll0.readyState0 = WalletReadyState.NotDetected
       ∧ (pollStep sPoll0).1.readyState0 = WalletReadyState.Installed
       ∧ (pollStep sPoll0).1.pollActive = false) :=
  readyState_lifecycle.2.2.2.2.2.2.2.2.2.2.2 sPoll0 (fun _ => rfl)

end StarcoinAdapter
